import Mathlib

/-!
Verification of the go-musicfox-ha remote-control HTTP core
(`custom_components/go_musicfox_ha/http_control.go`, package `remote_control`).

The Go file is embedded shallowly:
* pure data (`PlayerStatus`, `command`) becomes Lean structures;
* the `PlayerController` capability interface becomes a `Controller` record of
  behaviour oracles (error results of the two fallible calls, the status
  returned by `GetStatus`); the calls a handler performs are recorded in an
  explicit `List CtrlCall` trace, in program order;
* `json.Marshal` of `PlayerStatus` is a total function (marshalling this
  struct cannot fail in Go: every field is a basic type);
* each HTTP handler becomes a function from the request data it actually
  reads (method, decoded body, flush support, the schedule of channel / context
  events for the SSE loop) to a result record (status code, body, trace,
  whether `r.Body.Close()` ran);
* the SSE client registry with its mutex becomes a labelled transition system
  whose steps are the registry operations as they occur between the critical
  sections of the Go code.
-/

namespace RemoteControl

/-- Play modes of `github.com/go-musicfox/go-musicfox/internal/types`; the Go
handler only ever names these five constants. -/
inductive Mode where
  | PmOrdered
  | PmListLoop
  | PmSingleLoop
  | PmListRandom
  | PmInfRandom
  deriving DecidableEq, Repr

/-- `PlayerStatus` (http_control.go lines 15-24).  `time.Duration` is an
int64 nanosecond count, embedded as `Int`; `uint8` as `Nat`. -/
structure PlayerStatus where
  songTitle : String
  artist : String
  isPlaying : Bool
  playMode : Nat
  songDuration : Int
  playbackPlayed : Int
  lyric : String
  isLoggedIn : Bool
  deriving DecidableEq, Repr

/-- One call performed on the `PlayerController` capability interface. -/
inductive CtrlCall where
  | setPlayMode (m : Mode)
  | play
  | pause
  | next
  | previous
  | nextPlayMode
  | activateIntelligentMode
  | getStatus
  | rerender
  deriving DecidableEq, Repr

/-- Behaviour of the `PlayerController` implementation behind the interface:
`setPlayModeErr m = some e` means `SetPlayMode(m)` returns error `e`
(likewise `activateErr` for `ActivateIntelligentMode`), `none` means success;
`status` is what `GetStatus` reports. -/
structure Controller where
  setPlayModeErr : Mode → Option String
  activateErr : Option String
  status : PlayerStatus

/-- Minimal JSON string quoting as `encoding/json` performs on the string
fields (quote, backslash and newline are the escapes these claims can meet). -/
def jsonQuote (s : String) : String :=
  "\"" ++ String.join (s.data.map (fun c =>
    if c = '"' then "\\\""
    else if c = '\\' then "\\\\"
    else if c = '\n' then "\\n"
    else String.singleton c)) ++ "\""

/-- `json.Marshal` of a `PlayerStatus` value: the field order and the
`json:"..."` tags of lines 16-23 of the source.  Total: marshalling this
struct cannot fail in Go. -/
def marshalStatus (s : PlayerStatus) : String :=
  "\x7b\"song_title\":" ++ jsonQuote s.songTitle ++
  ",\"artist\":" ++ jsonQuote s.artist ++
  ",\"is_playing\":" ++ (if s.isPlaying then "true" else "false") ++
  ",\"play_mode\":" ++ toString s.playMode ++
  ",\"song_duration\":" ++ toString s.songDuration ++
  ",\"playback_played\":" ++ toString s.playbackPlayed ++
  ",\"lyric\":" ++ jsonQuote s.lyric ++
  ",\"is_logged_in\":" ++ (if s.isLoggedIn then "true" else "false") ++ "\x7d"

/-- The literal success body `{"status": "ok"}` the handlers write. -/
def okBody : String := "\x7b\"status\": \"ok\"\x7d"

/-- The error body `{"status": "error", "message": "<msg>"}` produced by
`fmt.Sprintf` with the format string of the handler: `msg` is interpolated
verbatim. -/
def errBody (msg : String) : String :=
  "\x7b\"status\": \"error\", \"message\": \"" ++ msg ++ "\"\x7d"

/-! ## Broadcast publisher (BroadcastStatus, lines 68-85)

A subscriber channel `make(chan string, 1)` is a bounded FIFO buffer; the
`select`/`default` send of line 79-83 is the non-blocking `trySend`. -/

/-- A buffered string channel: capacity and current buffer contents. -/
structure SSEChan where
  cap : Nat
  buf : List String
  deriving DecidableEq, Repr

/-- The non-blocking send `select { case ch <- msg: default: }`: enqueue when
the buffer has free capacity, otherwise drop the message and leave the
channel unchanged. -/
def trySend (ch : SSEChan) (msg : String) : SSEChan :=
  if ch.buf.length < ch.cap then ⟨ch.cap, ch.buf ++ [msg]⟩ else ch

/-- `BroadcastStatus` under the lock: serialize the snapshot once, then
attempt a non-blocking send to every registered client channel. -/
def broadcastStatus (clients : List SSEChan) (status : PlayerStatus) : List SSEChan :=
  let jsonData := marshalStatus status
  clients.map (fun ch => trySend ch jsonData)

/-! ## SSE handler (sseHandler, lines 87-126) -/

/-- One wake-up of the `select` in the relay loop: a message arrived on the client
channel, or the request context was cancelled. -/
inductive LoopEvent where
  | msg (data : String)
  | ctxDone
  deriving DecidableEq, Repr

/-- An SSE event frame `data: <payload>\n\n` as written by `fmt.Fprintf`. -/
def sseFrame (payload : String) : String := "data: " ++ payload ++ "\n\n"

/-- The relay loop (lines 117-125) over a schedule of wake-ups: each message
is written as one frame (and flushed); context cancellation returns from the
handler, so nothing after it is written. -/
def relayLoop : List LoopEvent → List String
  | [] => []
  | LoopEvent.msg d :: rest => sseFrame d :: relayLoop rest
  | LoopEvent.ctxDone :: _ => []

/-- Result of one SSE connection: response status code (Go writes 200
implicitly on the first body write; `http.Error` writes 500), the event
frames written to the wire in order, the capability-interface calls, and
whether the channel was registered in `c.sseClients`. -/
structure SSEResult where
  statusCode : Nat
  frames : List String
  calls : List CtrlCall
  registered : Bool
  deriving DecidableEq, Repr

/-- `sseHandler`: sets stream headers, registers a fresh buffered channel
(before any other check — the method is never inspected), then requires the
`http.Flusher` capability: without it, `http.Error(..., 500)` and return;
with it, one initial frame from `GetStatus` is written and flushed, then the
relay loop runs.  The deferred cleanup (deregister, then close) is modelled
by the registry transition system below. -/
def sseHandler (ctrl : Controller) (method : String) (supportsFlush : Bool)
    (events : List LoopEvent) : SSEResult :=
  if supportsFlush then
    { statusCode := 200
      frames := sseFrame (marshalStatus ctrl.status) :: relayLoop events
      calls := [CtrlCall.getStatus]
      registered := true }
  else
    { statusCode := 500, frames := [], calls := [], registered := true }

/-! ## Status handler (statusHandler, lines 128-145) -/

/-- Result of the status endpoint. -/
structure StatusResult where
  statusCode : Nat
  body : String
  calls : List CtrlCall
  deriving DecidableEq, Repr

/-- `statusHandler`: non-GET is rejected with a bare 405 before any
capability call; otherwise the current status is queried and marshalled
(total, so the 500 branch of line 136-140 is dead) and returned with 200. -/
def statusHandler (ctrl : Controller) (method : String) : StatusResult :=
  if method ≠ "GET" then ⟨405, "", []⟩
  else ⟨200, marshalStatus ctrl.status, [CtrlCall.getStatus]⟩

/-! ## Command handler (commandHandler, lines 147-231) -/

/-- The decoded request body `command` (lines 147-150). -/
structure Cmd where
  command : String
  args : List String
  deriving DecidableEq, Repr

/-- The `switch cmd.Args[0]` of lines 174-188 mapping the argument name to a
play mode; `none` is the `default` branch. -/
def modeOfArg : String → Option Mode
  | "ordered" => some Mode.PmOrdered
  | "list_loop" => some Mode.PmListLoop
  | "single_loop" => some Mode.PmSingleLoop
  | "list_random" => some Mode.PmListRandom
  | "inf_random" => some Mode.PmInfRandom
  | _ => none

/-- Result of the command endpoint.  `bodyClosed` records whether
`r.Body.Close()` ran before the handler returned: the `defer` on line 164
is registered only after a successful decode, so the non-POST return
(line 155) and the decode-error return (line 162) leave it `false`. -/
structure CmdResult where
  statusCode : Nat
  body : String
  calls : List CtrlCall
  bodyClosed : Bool
  deriving DecidableEq, Repr

/-- `commandHandler`: the method gate, the JSON decode of the body (given
here as its outcome, `Except` of the error text of the decoder or the decoded
`Cmd`), then the `switch cmd.Command` dispatch. -/
def commandHandler (ctrl : Controller) (method : String)
    (decoded : Except String Cmd) : CmdResult :=
  if method ≠ "POST" then ⟨405, "", [], false⟩
  else
    match decoded with
    | Except.error e => ⟨400, errBody e, [], false⟩
    | Except.ok cmd =>
      match cmd.command with
      | "set_play_mode" =>
        match cmd.args with
        | [a] =>
          match modeOfArg a with
          | none => ⟨400, errBody "invalid play mode", [], true⟩
          | some m =>
            match ctrl.setPlayModeErr m with
            | some e => ⟨500, errBody e, [CtrlCall.setPlayMode m], true⟩
            | none => ⟨200, okBody, [CtrlCall.setPlayMode m, CtrlCall.rerender], true⟩
        | _ => ⟨400, errBody "invalid args", [], true⟩
      | "play" => ⟨200, okBody, [CtrlCall.play], true⟩
      | "pause" => ⟨200, okBody, [CtrlCall.pause], true⟩
      | "next" => ⟨200, okBody, [CtrlCall.next], true⟩
      | "previous" => ⟨200, okBody, [CtrlCall.previous], true⟩
      | "next_play_mode" => ⟨200, okBody, [CtrlCall.nextPlayMode], true⟩
      | "activate_intelligent_mode" =>
        match ctrl.activateErr with
        | some e => ⟨500, errBody e, [CtrlCall.activateIntelligentMode], true⟩
        | none => ⟨200, okBody, [CtrlCall.activateIntelligentMode], true⟩
      | _ => ⟨400, errBody "unknown command", [], true⟩

/-! ## Subscriber registry lifecycle (lines 93-103 and 68-85)

The channel of each SSE connection goes through the phases: not yet created,
registered (lines 93-96, under `c.mu`), deregistered (lines 99-101, under
`c.mu`), closed (line 102, after the unlock).  `BroadcastStatus` iterates
`c.sseClients` under the same mutex, so at mutex granularity the reachable
interleavings are exactly the step sequences of this system.  The step
`closeChan` requires the phase `deregistered`: in the Go `defer`, `close`
runs only after the `delete` has completed and the mutex was released. -/

/-- Per-connection program position in `sseHandler`. -/
inductive ConnPhase where
  | absent
  | inLoop
  | deregistered
  | done
  deriving DecidableEq, Repr

/-- Global registry state: the key set of `c.sseClients`, the set of channels
that have been closed, and the phase of each connection (channels named by `Nat`). -/
structure RegState where
  registry : Finset Nat
  closedChans : Finset Nat
  pc : Nat → ConnPhase

/-- Initial state: no clients. -/
def initReg : RegState := ⟨∅, ∅, fun _ => ConnPhase.absent⟩

/-- Pointwise update of the phase map. -/
def setPC (f : Nat → ConnPhase) (id : Nat) (p : ConnPhase) : Nat → ConnPhase :=
  fun j => if j = id then p else f j

/-- One mutex-granularity step of the system. -/
inductive RegStep : RegState → RegState → Prop where
  | connect (s : RegState) (id : Nat) :
      s.pc id = ConnPhase.absent →
      RegStep s ⟨insert id s.registry, s.closedChans, setPC s.pc id ConnPhase.inLoop⟩
  | deregister (s : RegState) (id : Nat) :
      s.pc id = ConnPhase.inLoop →
      RegStep s ⟨s.registry.erase id, s.closedChans, setPC s.pc id ConnPhase.deregistered⟩
  | closeChan (s : RegState) (id : Nat) :
      s.pc id = ConnPhase.deregistered →
      RegStep s ⟨s.registry, insert id s.closedChans, setPC s.pc id ConnPhase.done⟩

/-- States reachable from the initial state. -/
inductive RegReachable : RegState → Prop where
  | init : RegReachable initReg
  | step {s t : RegState} : RegReachable s → RegStep s t → RegReachable t

/-- The inductive invariant: registry membership is exactly phase `inLoop`,
closedness is exactly phase `done`. -/
def RegInv (s : RegState) : Prop :=
  (∀ id, id ∈ s.registry ↔ s.pc id = ConnPhase.inLoop) ∧
  (∀ id, id ∈ s.closedChans ↔ s.pc id = ConnPhase.done)

/-! ## Concrete values used by the witnesses -/

/-- A capability interface on which every call succeeds. -/
def ctrlOk : Controller :=
  ⟨fun _ => none, none, ⟨"Song", "Artist", true, 0, 180000000000, 5000000000, "la", true⟩⟩

/-- A capability interface whose fallible calls fail with error text `boom`. -/
def ctrlErr : Controller :=
  ⟨fun _ => some "boom", some "boom", ⟨"", "", false, 0, 0, 0, "", false⟩⟩

/-! ## Helper lemmas about the registry transition system -/

theorem regInv_init : RegInv initReg := by
  refine ⟨fun id => ?_, fun id => ?_⟩ <;> simp [initReg, RegInv]

theorem regInv_step {s t : RegState} (hs : RegInv s) (hst : RegStep s t) : RegInv t := by
  obtain ⟨h1, h2⟩ := hs
  cases hst with
  | connect id hpc =>
    refine ⟨fun j => ?_, fun j => ?_⟩
    · by_cases hj : j = id
      · subst hj; simp [setPC, Finset.mem_insert]
      · simp [setPC, hj, Finset.mem_insert, h1 j]
    · by_cases hj : j = id
      · subst hj
        rw [h2 j, hpc]
        simp [setPC]
      · simp [setPC, hj, h2 j]
  | deregister id hpc =>
    refine ⟨fun j => ?_, fun j => ?_⟩
    · by_cases hj : j = id
      · subst hj; simp [setPC, Finset.mem_erase]
      · simp [setPC, hj, Finset.mem_erase, h1 j]
    · by_cases hj : j = id
      · subst hj
        rw [h2 j, hpc]
        simp [setPC]
      · simp [setPC, hj, h2 j]
  | closeChan id hpc =>
    refine ⟨fun j => ?_, fun j => ?_⟩
    · by_cases hj : j = id
      · subst hj
        rw [h1 j, hpc]
        simp [setPC]
      · simp [setPC, hj, h1 j]
    · by_cases hj : j = id
      · subst hj; simp [setPC, Finset.mem_insert]
      · simp [setPC, hj, Finset.mem_insert, h2 j]

theorem regInv_reachable {s : RegState} (h : RegReachable s) : RegInv s := by
  induction h with
  | init => exact regInv_init
  | step _ hst ih => exact regInv_step ih hst

/-! ## Witness states for the registry system: connect channel 0, connect
channel 1, then tear channel 0 down (deregister, then close). -/

def wReg1 : RegState :=
  ⟨insert 0 initReg.registry, initReg.closedChans, setPC initReg.pc 0 ConnPhase.inLoop⟩

def wReg2 : RegState :=
  ⟨insert 1 wReg1.registry, wReg1.closedChans, setPC wReg1.pc 1 ConnPhase.inLoop⟩

def wReg3 : RegState :=
  ⟨wReg2.registry.erase 0, wReg2.closedChans, setPC wReg2.pc 0 ConnPhase.deregistered⟩

def wReg4 : RegState :=
  ⟨wReg3.registry, insert 0 wReg3.closedChans, setPC wReg3.pc 0 ConnPhase.done⟩

theorem wReg4_reachable : RegReachable wReg4 := by
  have h1 : RegStep initReg wReg1 := RegStep.connect initReg 0 rfl
  have h2 : RegStep wReg1 wReg2 := RegStep.connect wReg1 1 (by decide)
  have h3 : RegStep wReg2 wReg3 := RegStep.deregister wReg2 0 (by decide)
  have h4 : RegStep wReg3 wReg4 := RegStep.closeChan wReg3 0 (by decide)
  exact RegReachable.step (RegReachable.step (RegReachable.step
    (RegReachable.step RegReachable.init h1) h2) h3) h4

/-! ## Claim theorems -/

/-- Claim C1: on a POST whose body fails to decode, `commandHandler` does
return 400 with an error payload embedding the decode error text, and it
performs no capability call — but `r.Body.Close()` does NOT run on this path
(`bodyClosed = false`): the `defer` of line 164 is registered only after a
successful decode, so the early return on line 162 skips it.  This refutes
the part of the claim that says the body is released on this path as on
every other. -/
theorem C1_parse_failure_body_not_closed (ctrl : Controller) (e : String) :
    commandHandler ctrl "POST" (Except.error e) =
      ⟨400, errBody e, [], false⟩ := by
  simp [commandHandler]

/-- Claim C2: `broadcastStatus` of the empty registry is a no-op; otherwise
it maps the non-blocking `trySend` of the once-serialized snapshot over every
registered channel independently: a channel with free buffer capacity
receives the message appended, a full channel is left unchanged (message
silently dropped), and no entry is added or removed.  The send is a total
function, so the publisher never blocks on any subscriber. -/
theorem C2_broadcast_nonblocking (clients : List SSEChan) (status : PlayerStatus) :
    broadcastStatus [] status = [] ∧
    (broadcastStatus clients status).length = clients.length ∧
    (∀ (i : Nat) (ch : SSEChan), clients[i]? = some ch →
      (broadcastStatus clients status)[i]? =
        some (if ch.buf.length < ch.cap
              then ⟨ch.cap, ch.buf ++ [marshalStatus status]⟩ else ch)) := by
  refine ⟨rfl, by simp [broadcastStatus], fun i ch h => ?_⟩
  simp [broadcastStatus, List.getElem?_map, h, trySend]

/-- Witness for C2 at a registry of one empty channel and one full channel:
the free channel receives the serialized snapshot, the full one keeps its
old buffer unchanged. -/
theorem C2_broadcast_nonblocking_witness :
    (broadcastStatus [⟨1, []⟩, ⟨1, ["old"]⟩] ctrlOk.status)[0]? =
      some ⟨1, [marshalStatus ctrlOk.status]⟩ ∧
    (broadcastStatus [⟨1, []⟩, ⟨1, ["old"]⟩] ctrlOk.status)[1]? =
      some ⟨1, ["old"]⟩ := by
  constructor
  · have h := (C2_broadcast_nonblocking [⟨1, []⟩, ⟨1, ["old"]⟩] ctrlOk.status).2.2 0 ⟨1, []⟩ rfl
    simpa using h
  · have h := (C2_broadcast_nonblocking [⟨1, []⟩, ⟨1, ["old"]⟩] ctrlOk.status).2.2 1 ⟨1, ["old"]⟩ rfl
    simpa using h

/-- Claim C3: in every reachable state of the registry transition system, a
channel present in the registry has not been closed.  The system encodes the
teardown order of lines 98-103: `closeChan` is enabled only in phase
`deregistered`, i.e. after the `delete` under the mutex completed, so a
broadcast — which under the same mutex sends exactly to the channels in the
registry — never sends on a closed channel. -/
theorem C3_registry_channels_live (s : RegState) (h : RegReachable s)
    (id : Nat) (hid : id ∈ s.registry) : id ∉ s.closedChans := by
  obtain ⟨h1, h2⟩ := regInv_reachable h
  intro hc
  have hil := (h1 id).mp hid
  have hdn := (h2 id).mp hc
  rw [hil] at hdn
  exact ConnPhase.noConfusion hdn

/-- Witness for C3: after connecting channels 0 and 1 and tearing channel 0
down (deregister, then close), channel 1 is still registered and is not among
the closed channels. -/
theorem C3_registry_channels_live_witness :
    (1 ∈ wReg4.registry) ∧ (1 ∉ wReg4.closedChans) :=
  ⟨by decide, C3_registry_channels_live wReg4 wReg4_reachable 1 (by decide)⟩

/-- Claim C4: on a connection that supports flushing, `sseHandler` queries
`GetStatus` once and the first frame written is exactly the event frame of
that marshalled status, placed before every frame the relay loop produces
from subsequently published messages. -/
theorem C4_initial_frame_first (ctrl : Controller) (method : String)
    (events : List LoopEvent) :
    (sseHandler ctrl method true events).frames =
      sseFrame (marshalStatus ctrl.status) :: relayLoop events ∧
    (sseHandler ctrl method true events).calls = [CtrlCall.getStatus] := by
  exact ⟨rfl, rfl⟩

/-- Claim C5 (amended): when the single argument names one of the five valid
modes AND the capability call `SetPlayMode` reports no error, the endpoint
returns 200 with the ok body and the capability trace is exactly
`SetPlayMode(mode)` followed by `Rerender`.  (The unamended claim omits the
success proviso; see the counterexample.) -/
theorem C5_set_play_mode_ok (ctrl : Controller) (a : String) (m : Mode)
    (ha : modeOfArg a = some m) (hok : ctrl.setPlayModeErr m = none) :
    commandHandler ctrl "POST" (Except.ok ⟨"set_play_mode", [a]⟩) =
      ⟨200, okBody, [CtrlCall.setPlayMode m, CtrlCall.rerender], true⟩ := by
  simp [commandHandler, ha, hok]

/-- Witness for C5: a controller whose `SetPlayMode` succeeds, argument
`list_loop`. -/
theorem C5_set_play_mode_ok_witness :
    commandHandler ctrlOk "POST" (Except.ok ⟨"set_play_mode", ["list_loop"]⟩) =
      ⟨200, okBody, [CtrlCall.setPlayMode Mode.PmListLoop, CtrlCall.rerender], true⟩ :=
  C5_set_play_mode_ok ctrlOk "list_loop" Mode.PmListLoop rfl rfl

/-- Counterexample to C5 as stated: with a capability interface whose
`SetPlayMode` returns an error (`ctrlErr`), the request
`set_play_mode ["ordered"]` is answered with 500 (lines 190-194), not 200,
and `Rerender` is never invoked. -/
theorem C5_counterexample :
    ¬ ((commandHandler ctrlErr "POST"
          (Except.ok ⟨"set_play_mode", ["ordered"]⟩)).statusCode = 200 ∧
       (commandHandler ctrlErr "POST"
          (Except.ok ⟨"set_play_mode", ["ordered"]⟩)).calls =
         [CtrlCall.setPlayMode Mode.PmOrdered, CtrlCall.rerender]) := by
  decide

/-- Claim C6: a `set_play_mode` request whose argument list is not a single
valid mode name gets 400 with one of the two error payloads of lines 168-188,
and no call reaches the capability interface. -/
theorem C6_set_play_mode_invalid (ctrl : Controller) (args : List String)
    (h : ∀ a, args = [a] → modeOfArg a = none) :
    (commandHandler ctrl "POST" (Except.ok ⟨"set_play_mode", args⟩)).statusCode = 400 ∧
    (commandHandler ctrl "POST" (Except.ok ⟨"set_play_mode", args⟩)).calls = [] ∧
    ((commandHandler ctrl "POST" (Except.ok ⟨"set_play_mode", args⟩)).body =
        errBody "invalid args" ∨
     (commandHandler ctrl "POST" (Except.ok ⟨"set_play_mode", args⟩)).body =
        errBody "invalid play mode") := by
  match args with
  | [] => exact ⟨rfl, rfl, Or.inl rfl⟩
  | [a] =>
    have ha := h a rfl
    refine ⟨?_, ?_, Or.inr ?_⟩ <;> simp [commandHandler, ha]
  | a :: b :: rest => exact ⟨rfl, rfl, Or.inl rfl⟩

/-- Witness for C6: the unknown mode name `bogus`. -/
theorem C6_set_play_mode_invalid_witness :
    (commandHandler ctrlOk "POST"
      (Except.ok ⟨"set_play_mode", ["bogus"]⟩)).statusCode = 400 ∧
    (commandHandler ctrlOk "POST"
      (Except.ok ⟨"set_play_mode", ["bogus"]⟩)).calls = [] := by
  have h : ∀ a, (["bogus"] : List String) = [a] → modeOfArg a = none := by
    intro a ha
    injection ha with h1 h2
    subst h1
    decide
  exact ⟨(C6_set_play_mode_invalid ctrlOk ["bogus"] h).1,
         (C6_set_play_mode_invalid ctrlOk ["bogus"] h).2.1⟩

/-- Claim C7: `activate_intelligent_mode` surfaces a capability error as 500
with the error text interpolated verbatim into the error payload, and
returns 200 with the ok body on success; in both cases exactly the one
capability call is made. -/
theorem C7_activate_intelligent_mode (ctrl : Controller) (args : List String) :
    (∀ e, ctrl.activateErr = some e →
      commandHandler ctrl "POST" (Except.ok ⟨"activate_intelligent_mode", args⟩) =
        ⟨500, errBody e, [CtrlCall.activateIntelligentMode], true⟩) ∧
    (ctrl.activateErr = none →
      commandHandler ctrl "POST" (Except.ok ⟨"activate_intelligent_mode", args⟩) =
        ⟨200, okBody, [CtrlCall.activateIntelligentMode], true⟩) := by
  constructor
  · intro e he
    simp [commandHandler, he]
  · intro he
    simp [commandHandler, he]

/-- Witness for C7: the failing controller `ctrlErr` yields 500 with `boom`
verbatim; the succeeding controller `ctrlOk` yields 200 ok. -/
theorem C7_activate_intelligent_mode_witness :
    commandHandler ctrlErr "POST" (Except.ok ⟨"activate_intelligent_mode", []⟩) =
      ⟨500, errBody "boom", [CtrlCall.activateIntelligentMode], true⟩ ∧
    commandHandler ctrlOk "POST" (Except.ok ⟨"activate_intelligent_mode", []⟩) =
      ⟨200, okBody, [CtrlCall.activateIntelligentMode], true⟩ :=
  ⟨(C7_activate_intelligent_mode ctrlErr []).1 "boom" rfl,
   (C7_activate_intelligent_mode ctrlOk []).2 rfl⟩

/-- Claim C8: without flush support the SSE handler answers 500 immediately:
no event frame is written, no capability call is made (the relay loop is
never entered). -/
theorem C8_no_flusher_500 (ctrl : Controller) (method : String)
    (events : List LoopEvent) :
    sseHandler ctrl method false events =
      ⟨500, [], [], true⟩ := by
  exact rfl

/-- Claim C9: a non-POST request to the command endpoint and a non-GET
request to the status endpoint are both answered 405 with an empty body and
an empty capability-call trace (lines 153-156 and 129-131). -/
theorem C9_method_not_allowed (ctrl : Controller) (mc ms : String)
    (decoded : Except String Cmd) (hc : mc ≠ "POST") (hs : ms ≠ "GET") :
    commandHandler ctrl mc decoded = ⟨405, "", [], false⟩ ∧
    statusHandler ctrl ms = ⟨405, "", []⟩ := by
  constructor
  · simp [commandHandler, hc]
  · simp [statusHandler, hs]

/-- Witness for C9: GET on the command endpoint, POST on the status
endpoint. -/
theorem C9_method_not_allowed_witness :
    commandHandler ctrlOk "GET" (Except.ok ⟨"play", []⟩) = ⟨405, "", [], false⟩ ∧
    statusHandler ctrlOk "POST" = ⟨405, "", []⟩ :=
  C9_method_not_allowed ctrlOk "GET" "POST" (Except.ok ⟨"play", []⟩)
    (by decide) (by decide)

/-- Claim C10: `sseHandler` never inspects the request method: its result is
the same for every method as for GET, the channel is registered regardless of
method, and the status code is never 405 (the Boolean comparison with 405
evaluates to false in both branches). -/
theorem C10_sse_no_method_check (ctrl : Controller) (method : String)
    (supportsFlush : Bool) (events : List LoopEvent) :
    sseHandler ctrl method supportsFlush events =
      sseHandler ctrl "GET" supportsFlush events ∧
    ((sseHandler ctrl method supportsFlush events).statusCode == 405) = false ∧
    (sseHandler ctrl method supportsFlush events).registered = true := by
  refine ⟨rfl, ?_, ?_⟩ <;> cases supportsFlush <;> simp [sseHandler]

end RemoteControl
